import Mathlib

/-!
ESS lifecycle hook resource: create / read / update / delete.

Shallow embedding of `alicloud/resource_alicloud_ess_lifecyclehook.go`.

* `schema.ResourceData` is a typed record: the identity, the seven schema
  attributes (`none` = not set) and the change flags answered by `HasChange`.
* The remote service (`meta`) is a record of response functions; every remote
  call a handler issues is appended to a trace, so that "which request was
  sent", "how many attempts" and "was a describe issued" are facts about the
  handler's result.
* A handler returns its error (`none` = `nil`), the record and the trace.
-/

namespace Alicloud

/-! ## Errors -/

/-- Go `error` values that reach the handlers. `server` is an SDK error with its
code and message, `notFound` the provider's own not-found error, `timeout` the
time-out error of the retry helper with the last error it recorded, `complex` the
wrapper produced by `WrapError` and `WrapErrorf`. -/
inductive Error where
  | server (code : String) (message : String)
  | notFound (message : String)
  | timeout (last : Error)
  | complex (cause : Error) (context : List String)
  deriving DecidableEq, Repr

/-- Modelled from the spec: the error-code constant `EssThrottling`, declared in the
provider's error table outside this file; it names the transient rate-limiting
condition. -/
def EssThrottling : String := "Throttling"

/-- Modelled from the spec: the error-code constant `InvalidLifecycleHookIdNotFound`,
declared in the provider's error table outside this file; the remote delete call
answers with it when the identity is already absent. -/
def InvalidLifecycleHookIdNotFound : String := "InvalidLifecycleHookId.NotFound"

/-- Modelled from the spec: the message constant `DefaultErrorMsg` of the provider's
error helpers. -/
def DefaultErrorMsg : String := "DefaultErrorMsg"

/-- Modelled from the spec: the source tag `AlibabaCloudSdkGoERROR` of the provider's
error helpers. -/
def AlibabaCloudSdkGoERROR : String := "AlibabaCloudSdkGoERROR"

/-- Modelled from the spec: the provider helper `IsExceptedError`, which is not part
of this file. An error matches a code when it is a remote error with that code,
looked up through the provider's wrappers. -/
def IsExceptedError : Error → String → Bool
  | .server code _, expectCode => code == expectCode
  | .complex cause _, expectCode => IsExceptedError cause expectCode
  | _, _ => false

/-- Modelled from the spec: the provider helper `IsExceptedErrors`, which is not part
of this file: the error matches one of the listed codes. -/
def IsExceptedErrors (err : Error) (expectCodes : List String) : Bool :=
  expectCodes.any (fun code => IsExceptedError err code)

/-- Modelled from the spec: the provider helper `NotFoundError`, which is not part of
this file. It recognises the distinguished not-found outcome of a describe, looked
up through the provider's wrappers. -/
def NotFoundError : Error → Bool
  | .notFound _ => true
  | .complex cause _ => NotFoundError cause
  | _ => false

/-- Whether an error is a time-out error of the retry helper, looked up through the
provider's wrappers. -/
def Error.isTimeout : Error → Bool
  | .timeout _ => true
  | .complex cause _ => Error.isTimeout cause
  | _ => false

/-- Modelled from the spec: the provider helper `WrapErrorf`, which is not part of
this file: the cause wrapped with the message and its arguments. -/
def WrapErrorf (cause : Error) (msg : String) (args : List String) : Error :=
  .complex cause (msg :: args)

/-- Modelled from the spec: the provider helper `WrapError`, which is not part of this
file: `nil` stays `nil`, any other error is wrapped. -/
def WrapError : Option Error → Option Error
  | none => none
  | some cause => some (.complex cause [])

/-! ## Requests, responses and the remote service -/

/-- The SDK type `requests.Integer`, a string type. -/
abbrev Integer := String

/-- The SDK function `requests.NewInteger`: the decimal text of the integer. -/
def NewInteger (integer : Int) : Integer := toString integer

/-- The SDK type `ess.CreateLifecycleHookRequest`: the fields this file assigns. -/
structure CreateLifecycleHookRequest where
  ScalingGroupId : String
  LifecycleHookName : String
  LifecycleTransition : String
  HeartbeatTimeout : Integer
  DefaultResult : String
  NotificationArn : String
  NotificationMetadata : String
  deriving DecidableEq, Repr

/-- The SDK constructor `ess.CreateCreateLifecycleHookRequest()`: every field at its empty value. -/
def CreateCreateLifecycleHookRequest : CreateLifecycleHookRequest :=
  ⟨"", "", "", "", "", "", ""⟩

/-- The SDK type `ess.CreateLifecycleHookResponse`: the field this file reads. -/
structure CreateLifecycleHookResponse where
  LifecycleHookId : String
  deriving DecidableEq, Repr

/-- The SDK type `ess.ModifyLifecycleHookRequest`: the fields this file assigns, together with the
two query fields of the SDK type that carry the parent group and the hook name. -/
structure ModifyLifecycleHookRequest where
  LifecycleHookId : String
  ScalingGroupId : String
  LifecycleHookName : String
  LifecycleTransition : String
  HeartbeatTimeout : Integer
  DefaultResult : String
  NotificationArn : String
  NotificationMetadata : String
  deriving DecidableEq, Repr

/-- The SDK constructor `ess.CreateModifyLifecycleHookRequest()`: every field at its empty value. -/
def CreateModifyLifecycleHookRequest : ModifyLifecycleHookRequest :=
  ⟨"", "", "", "", "", "", "", ""⟩

/-- The SDK type `ess.DeleteLifecycleHookRequest`: the field this file assigns. -/
structure DeleteLifecycleHookRequest where
  LifecycleHookId : String
  deriving DecidableEq, Repr

/-- The SDK constructor `ess.CreateDeleteLifecycleHookRequest()`. -/
def CreateDeleteLifecycleHookRequest : DeleteLifecycleHookRequest := ⟨""⟩

/-- The SDK type `ess.LifecycleHook`: the observed state returned by a describe. -/
structure LifecycleHook where
  ScalingGroupId : String
  LifecycleHookName : String
  LifecycleTransition : String
  HeartbeatTimeout : Int
  DefaultResult : String
  NotificationArn : String
  NotificationMetadata : String
  deriving DecidableEq, Repr

/-- One remote call, as recorded in a handler's trace. -/
inductive Call where
  | create (request : CreateLifecycleHookRequest)
  | describe (id : String)
  | modify (request : ModifyLifecycleHookRequest)
  | delete (request : DeleteLifecycleHookRequest)
  | waitDeleted (id : String)
  deriving DecidableEq, Repr

/-- Whether a recorded call is a describe, the remote call of a Read. -/
def Call.isDescribe : Call → Bool
  | .describe _ => true
  | _ => false

/-- The remote service behind `meta`. `CreateLifecycleHook n` answers the attempt
number `n` (from 0) of one retry loop; the other operations are issued at most once
by a handler. `DescribeEssLifecycleHook` and `WaitForEssLifecycleHook` stand for the
`EssService` methods of those names. `attemptCost n` is the time attempt `n` takes
and `backoff n` the pause that follows it when it is retried. -/
structure AliyunClient where
  CreateLifecycleHook : Nat → CreateLifecycleHookRequest → Except Error CreateLifecycleHookResponse
  ModifyLifecycleHook : ModifyLifecycleHookRequest → Except Error Unit
  DeleteLifecycleHook : DeleteLifecycleHookRequest → Except Error Unit
  DescribeEssLifecycleHook : String → Except Error LifecycleHook
  WaitForEssLifecycleHook : String → Option Error
  attemptCost : Nat → Nat
  backoff : Nat → Nat

/-! ## The resource record -/

/-- The record `schema.ResourceData` for the schema of
`resourceAlicloudEssLifecycleHook`: the identity, the seven attributes with their schema types (`none` = not set) and the
answer of `HasChange` for each key. -/
structure ResourceData where
  id : String
  scaling_group_id : Option String
  name : Option String
  lifecycle_transition : Option String
  heartbeat_timeout : Option Int
  default_result : Option String
  notification_arn : Option String
  notification_metadata : Option String
  HasChange : String → Bool

/-- The accessor `d.Id()`. -/
def ResourceData.Id (d : ResourceData) : String := d.id

/-- The update `d.SetId(v)`. -/
def ResourceData.SetId (d : ResourceData) (v : String) : ResourceData := { d with id := v }

/-- The lookup `d.Get(key)` followed by its type assertion: the attribute, or the zero
value of its type when it is not set. -/
def Get {α : Type} [Inhabited α] (v : Option α) : α := v.getD default

/-- The lookup `d.GetOk(key)`: the attribute and whether it is set to a non-zero value. -/
def GetOk {α : Type} [Inhabited α] [DecidableEq α] (v : Option α) : α × Bool :=
  (v.getD default, v.isSome && decide (v.getD default ≠ default))

/-- What a handler leaves behind: its error (`none` = `nil`), the record and the
remote calls it issued, oldest first. -/
structure Outcome where
  err : Option Error
  d : ResourceData
  calls : List Call

/-! ## The retry helper -/

/-- The constant `time.Minute`, in nanoseconds. -/
def time.Minute : Nat := 60000000000

/-- The helper type `resource.RetryError`: the error of one attempt and whether it may
be retried. -/
structure RetryError where
  Err : Error
  Retryable : Bool

/-- The constructor `resource.RetryableError`. -/
def RetryableError (err : Error) : RetryError := ⟨err, true⟩

/-- The constructor `resource.NonRetryableError`. -/
def NonRetryableError (err : Error) : RetryError := ⟨err, false⟩

/-- What one run of the retry helper leaves behind: its error, the caller's state,
the number of attempts made, and the times at which the last attempt started and
finished (both measured from the start of the run). -/
structure RetryReport (σ : Type) where
  err : Option Error
  state : σ
  attempts : Nat
  lastStart : Nat
  finished : Nat

/-- Modelled from the spec: the loop of `resource.Retry`, which is not part of this
file (section 4.2, RetryExecutor). Attempt number `i` starts at time `now` and ends
`attemptCost i` later; success and an error that is not retryable end the loop; after
a retryable error the next attempt starts `backoff i` later, provided the budget has
not elapsed by then. When the budget has elapsed the loop ends with the error of the
last attempt, unchanged: the helper keeps the error of every failed attempt and
returns the one it kept last, and its own time-out error only when it has kept none,
which a completed attempt excludes. The first argument bounds the number of attempts
still allowed to the loop; `none` means that bound was used up before the loop
ended. -/
def retryLoop {σ : Type} (timeout : Nat) (attemptCost backoff : Nat → Nat)
    (f : Nat → σ → Option RetryError × σ) : Nat → Nat → Nat → σ → Option (RetryReport σ)
  | 0, _, _, _ => none
  | fuel + 1, i, now, s =>
    let finished := now + attemptCost i
    match f i s with
    | (none, s') => some ⟨none, s', i + 1, now, finished⟩
    | (some rerr, s') =>
      if rerr.Retryable then
        if finished + backoff i < timeout then
          retryLoop timeout attemptCost backoff f fuel (i + 1) (finished + backoff i) s'
        else some ⟨some rerr.Err, s', i + 1, now, finished⟩
      else some ⟨some rerr.Err, s', i + 1, now, finished⟩

/-- Modelled from the spec: `resource.Retry` of the Terraform helper library, which is
not part of this file (section 4.2, RetryExecutor). The operation is invoked until it
succeeds, until it fails with an error that is not retryable, or until the budget
`timeout` has elapsed; the first attempt always takes place, attempts are sequential,
an attempt in progress is never aborted, and a later attempt starts only while the
elapsed time is below the budget. An exhausted budget gives the last error of the
operation as it is. `f i s` is attempt number `i` run on the caller's state `s`.
Every retried attempt is taken to advance the clock, so `timeout + 1` attempts are
allowed to the loop. -/
def Retry {σ : Type} (timeout : Nat) (attemptCost backoff : Nat → Nat)
    (f : Nat → σ → Option RetryError × σ) (s : σ) : Option (RetryReport σ) :=
  retryLoop timeout attemptCost backoff f (timeout + 1) 0 0 s

/-- The time at which attempt number `k` of a retry loop starts when every earlier
attempt was retried. -/
def attemptStart (attemptCost backoff : Nat → Nat) : Nat → Nat
  | 0 => 0
  | k + 1 => attemptStart attemptCost backoff k + attemptCost k + backoff k

/-! ## The handlers -/

/-- The record and the trace, threaded through the retried closure of Create. -/
structure Session where
  d : ResourceData
  calls : List Call

/-- The function `buildAlicloudEssLifeCycleHookArgs`: the create request of a record. -/
def buildAlicloudEssLifeCycleHookArgs (d : ResourceData) : CreateLifecycleHookRequest :=
  let request := CreateCreateLifecycleHookRequest
  let request := { request with ScalingGroupId := Get d.scaling_group_id }
  let request :=
    if (GetOk d.name).2 && decide ((GetOk d.name).1 ≠ "") then
      { request with LifecycleHookName := (GetOk d.name).1 }
    else request
  let transition := Get d.lifecycle_transition
  let request :=
    if transition ≠ "" then { request with LifecycleTransition := transition } else request
  let request :=
    if (GetOk d.heartbeat_timeout).2 && decide ((GetOk d.heartbeat_timeout).1 > 0) then
      { request with HeartbeatTimeout := NewInteger (GetOk d.heartbeat_timeout).1 }
    else request
  let request :=
    if (GetOk d.default_result).2 && decide ((GetOk d.default_result).1 ≠ "") then
      { request with DefaultResult := (GetOk d.default_result).1 }
    else request
  let request :=
    if (GetOk d.notification_arn).2 && decide ((GetOk d.notification_arn).1 ≠ "") then
      { request with NotificationArn := (GetOk d.notification_arn).1 }
    else request
  let request :=
    if (GetOk d.notification_metadata).2
        && decide ((GetOk d.notification_metadata).1 ≠ "") then
      { request with NotificationMetadata := (GetOk d.notification_metadata).1 }
    else request
  request

/-- The handler `resourceAliyunEssLifeCycleHookRead`: a describe of the record's
identity; not-found clears the identity, any other error is returned wrapped, and
success stores the seven observed attributes with `d.Set`. -/
def resourceAliyunEssLifeCycleHookRead (d : ResourceData) (meta : AliyunClient) : Outcome :=
  match meta.DescribeEssLifecycleHook d.Id with
  | .error err =>
    if NotFoundError err then
      ⟨none, d.SetId "", [Call.describe d.Id]⟩
    else
      ⟨WrapError (some err), d, [Call.describe d.Id]⟩
  | .ok object =>
    let d1 := { d with scaling_group_id := some object.ScalingGroupId }
    let d2 := { d1 with name := some object.LifecycleHookName }
    let d3 := { d2 with lifecycle_transition := some object.LifecycleTransition }
    let d4 := { d3 with heartbeat_timeout := some object.HeartbeatTimeout }
    let d5 := { d4 with default_result := some object.DefaultResult }
    let d6 := { d5 with notification_arn := some object.NotificationArn }
    let d7 := { d6 with notification_metadata := some object.NotificationMetadata }
    ⟨none, d7, [Call.describe d.Id]⟩

/-- The closure that `resourceAliyunEssLifeCycleHookCreate` hands to `Retry`: one
attempt of the remote create call. -/
def createAttempt (meta : AliyunClient) (request : CreateLifecycleHookRequest)
    (i : Nat) (s : Session) : Option RetryError × Session :=
  match meta.CreateLifecycleHook i request with
  | .error err =>
    if IsExceptedError err EssThrottling then
      (some (RetryableError err), ⟨s.d, s.calls ++ [Call.create request]⟩)
    else
      (some (NonRetryableError err), ⟨s.d, s.calls ++ [Call.create request]⟩)
  | .ok response =>
    (none, ⟨s.d.SetId response.LifecycleHookId, s.calls ++ [Call.create request]⟩)

/-- The handler `resourceAliyunEssLifeCycleHookCreate`: the retried create call, then a Read. The result is `none` only when the retry
loop used up its attempt bound. -/
def resourceAliyunEssLifeCycleHookCreate (d : ResourceData) (meta : AliyunClient) :
    Option Outcome :=
  let request := buildAlicloudEssLifeCycleHookArgs d
  match Retry (5 * time.Minute) meta.attemptCost meta.backoff
      (createAttempt meta request) ⟨d, []⟩ with
  | none => none
  | some report =>
    match report.err with
    | some err =>
      some ⟨some (WrapErrorf err DefaultErrorMsg
          ["alicloud_ess_lifecyclehook", "CreateLifecycleHook", AlibabaCloudSdkGoERROR]),
        report.state.d, report.state.calls⟩
    | none =>
      let r := resourceAliyunEssLifeCycleHookRead report.state.d meta
      some ⟨r.err, r.d, report.state.calls ++ r.calls⟩

/-- The handler `resourceAliyunEssLifeCycleHookUpdate`: one modify call carrying the
attributes flagged as changed, then a Read. -/
def resourceAliyunEssLifeCycleHookUpdate (d : ResourceData) (meta : AliyunClient) : Outcome :=
  let request := CreateModifyLifecycleHookRequest
  let request := { request with LifecycleHookId := d.Id }
  let request :=
    if d.HasChange "lifecycle_transition" then
      { request with LifecycleTransition := Get d.lifecycle_transition }
    else request
  let request :=
    if d.HasChange "heartbeat_timeout" then
      { request with HeartbeatTimeout := NewInteger (Get d.heartbeat_timeout) }
    else request
  let request :=
    if d.HasChange "default_result" then
      { request with DefaultResult := Get d.default_result }
    else request
  let request :=
    if d.HasChange "notification_arn" then
      { request with NotificationArn := Get d.notification_arn }
    else request
  let request :=
    if d.HasChange "notification_metadata" then
      { request with NotificationMetadata := Get d.notification_metadata }
    else request
  match meta.ModifyLifecycleHook request with
  | .error err =>
    ⟨some (WrapErrorf err DefaultErrorMsg
        [d.Id, "ModifyLifecycleHook", AlibabaCloudSdkGoERROR]), d, [Call.modify request]⟩
  | .ok _ =>
    let r := resourceAliyunEssLifeCycleHookRead d meta
    ⟨r.err, r.d, Call.modify request :: r.calls⟩

/-- The handler `resourceAliyunEssLifeCycleHookDelete`: one delete call, then the wait
for the deleted state. -/
def resourceAliyunEssLifeCycleHookDelete (d : ResourceData) (meta : AliyunClient) : Outcome :=
  let request := CreateDeleteLifecycleHookRequest
  let request := { request with LifecycleHookId := d.Id }
  match meta.DeleteLifecycleHook request with
  | .error err =>
    if IsExceptedErrors err [InvalidLifecycleHookIdNotFound] then
      ⟨none, d, [Call.delete request]⟩
    else
      ⟨some (WrapErrorf err DefaultErrorMsg
          [d.Id, "DeleteLifecycleHook", AlibabaCloudSdkGoERROR]), d, [Call.delete request]⟩
  | .ok _ =>
    ⟨WrapError (meta.WaitForEssLifecycleHook d.Id), d,
      [Call.delete request, Call.waitDeleted d.Id]⟩

/-! ## Sample data -/

/-- A record before creation: parent group and transition set, both schema defaults
applied, the computed attributes not set. -/
def sampleNew : ResourceData :=
  { id := "", scaling_group_id := some "asg-1", name := none,
    lifecycle_transition := some "SCALE_OUT", heartbeat_timeout := some 600,
    default_result := some "CONTINUE", notification_arn := none,
    notification_metadata := none, HasChange := fun _ => false }

/-- An existing record whose transition and time-out are flagged as changed. -/
def sampleChanged : ResourceData :=
  { id := "ash-1", scaling_group_id := some "asg-1", name := some "hook",
    lifecycle_transition := some "SCALE_IN", heartbeat_timeout := some 400,
    default_result := some "CONTINUE", notification_arn := some "arn",
    notification_metadata := some "meta",
    HasChange := fun key => key == "lifecycle_transition" || key == "heartbeat_timeout" }

/-- The observed state the sample service reports. -/
def sampleHook : LifecycleHook :=
  ⟨"asg-1", "hook-auto", "SCALE_OUT", 600, "CONTINUE", "arn-auto", "meta-auto"⟩

/-- A service on which everything succeeds at once; each attempt takes one second and
each pause lasts one second. -/
def sampleClient : AliyunClient :=
  { CreateLifecycleHook := fun _ _ => .ok ⟨"ash-1"⟩,
    ModifyLifecycleHook := fun _ => .ok (),
    DeleteLifecycleHook := fun _ => .ok (),
    DescribeEssLifecycleHook := fun _ => .ok sampleHook,
    WaitForEssLifecycleHook := fun _ => none,
    attemptCost := fun _ => 1000000000,
    backoff := fun _ => 1000000000 }

/-- The remote error of a hook that does not exist. -/
def goneError : Error := .server InvalidLifecycleHookIdNotFound "gone"

/-- A service on which the hook has vanished: modify and delete answer with the
not-found code and the describe finds nothing. -/
def goneClient : AliyunClient :=
  { sampleClient with
    ModifyLifecycleHook := fun _ => Except.error goneError,
    DeleteLifecycleHook := fun _ => Except.error goneError,
    DescribeEssLifecycleHook := fun _ => Except.error (.complex (.notFound "hook") []) }

/-- The remote rate-limiting error. -/
def throttlingError : Error := .server EssThrottling "slow down"

/-- A service that throttles the first two create attempts and accepts the third. -/
def busyClient : AliyunClient :=
  { sampleClient with
    CreateLifecycleHook := fun i _ =>
      if i < 2 then Except.error throttlingError else Except.ok ⟨"ash-1"⟩ }

/-- A service that throttles every create attempt; an attempt takes one second and the
pause after it sixty seconds. -/
def throttledClient : AliyunClient :=
  { sampleClient with
    CreateLifecycleHook := fun _ _ => Except.error throttlingError,
    backoff := fun _ => 60000000000 }

/-- A service that rejects the create call. -/
def rejectingClient : AliyunClient :=
  { sampleClient with
    CreateLifecycleHook := fun _ _ => Except.error (.server "Forbidden" "no") }

/-- A service that accepts the create and modify calls but on which the describe finds
nothing. -/
def lostClient : AliyunClient :=
  { busyClient with
    DescribeEssLifecycleHook := fun _ => Except.error (.complex (.notFound "hook") []) }

/-- A service whose describe is refused. -/
def refusedClient : AliyunClient :=
  { sampleClient with
    DescribeEssLifecycleHook := fun _ => Except.error (.server "Forbidden" "no") }

/-! ## Helper lemmas -/

theorem toDigitsCore_ne_nil (b : Nat) : ∀ (fuel n : Nat) (ds : List Char),
    ds ≠ [] → Nat.toDigitsCore b fuel n ds ≠ [] := by
  intro fuel
  induction fuel with
  | zero => intro n ds h; simpa [Nat.toDigitsCore] using h
  | succ fuel ih =>
    intro n ds _
    simp only [Nat.toDigitsCore]
    split
    · simp
    · exact ih _ _ (by simp)

theorem nat_repr_ne_empty (n : Nat) : Nat.repr n ≠ "" := by
  have h : Nat.toDigits 10 n ≠ [] := by
    simp only [Nat.toDigits, Nat.toDigitsCore]
    split
    · simp
    · exact toDigitsCore_ne_nil 10 _ _ _ (by simp)
  intro hrepr
  apply h
  have := congrArg String.data hrepr
  simpa [Nat.repr, List.asString] using this

theorem NewInteger_ne_empty (n : Int) : NewInteger n ≠ "" := by
  cases n with
  | ofNat m => exact nat_repr_ne_empty m
  | negSucc m =>
    intro h
    have := congrArg String.length h
    simp [NewInteger, toString, instToStringInt] at this
    exact absurd this.1 (by decide)

/-- The three results of a Read, by the answer of the describe. -/
theorem read_cases (d : ResourceData) (meta : AliyunClient) :
    resourceAliyunEssLifeCycleHookRead d meta =
      match meta.DescribeEssLifecycleHook d.Id with
      | .error err =>
        if NotFoundError err then ⟨none, { d with id := "" }, [Call.describe d.Id]⟩
        else ⟨some (.complex err []), d, [Call.describe d.Id]⟩
      | .ok o =>
        ⟨none,
          { d with
            scaling_group_id := some o.ScalingGroupId, name := some o.LifecycleHookName,
            lifecycle_transition := some o.LifecycleTransition,
            heartbeat_timeout := some o.HeartbeatTimeout,
            default_result := some o.DefaultResult,
            notification_arn := some o.NotificationArn,
            notification_metadata := some o.NotificationMetadata },
          [Call.describe d.Id]⟩ := by
  unfold resourceAliyunEssLifeCycleHookRead
  cases meta.DescribeEssLifecycleHook d.Id with
  | error err => cases h : NotFoundError err <;> simp [ResourceData.SetId, WrapError]
  | ok o => rfl

/-- The calls of a Read: one describe of the record's identity. -/
theorem read_calls (d : ResourceData) (meta : AliyunClient) :
    (resourceAliyunEssLifeCycleHookRead d meta).calls = [Call.describe d.Id] := by
  rw [read_cases]
  cases meta.DescribeEssLifecycleHook d.Id with
  | error err => cases h : NotFoundError err <;> simp [h]
  | ok o => rfl

/-- The request Update assembles, field by field, and what Update does with it. -/
theorem update_cases (d : ResourceData) (meta : AliyunClient) :
    ∃ request : ModifyLifecycleHookRequest,
      (request.LifecycleHookId = d.Id ∧ request.ScalingGroupId = "" ∧
        request.LifecycleHookName = "" ∧
        request.LifecycleTransition =
          (if d.HasChange "lifecycle_transition" then Get d.lifecycle_transition else "") ∧
        request.HeartbeatTimeout =
          (if d.HasChange "heartbeat_timeout" then NewInteger (Get d.heartbeat_timeout)
            else "") ∧
        request.DefaultResult =
          (if d.HasChange "default_result" then Get d.default_result else "") ∧
        request.NotificationArn =
          (if d.HasChange "notification_arn" then Get d.notification_arn else "") ∧
        request.NotificationMetadata =
          (if d.HasChange "notification_metadata" then Get d.notification_metadata
            else "")) ∧
      resourceAliyunEssLifeCycleHookUpdate d meta =
        match meta.ModifyLifecycleHook request with
        | .error err =>
          ⟨some (WrapErrorf err DefaultErrorMsg
            [d.Id, "ModifyLifecycleHook", AlibabaCloudSdkGoERROR]), d, [Call.modify request]⟩
        | .ok _ =>
          ⟨(resourceAliyunEssLifeCycleHookRead d meta).err,
            (resourceAliyunEssLifeCycleHookRead d meta).d,
            Call.modify request :: (resourceAliyunEssLifeCycleHookRead d meta).calls⟩ := by
  unfold resourceAliyunEssLifeCycleHookUpdate
  lift_lets
  intro r0 r1 r2 r3 r4 r5 r6
  refine ⟨r6, ?_, rfl⟩
  cases h1 : d.HasChange "lifecycle_transition" <;> cases h2 : d.HasChange "heartbeat_timeout" <;>
    cases h3 : d.HasChange "default_result" <;> cases h4 : d.HasChange "notification_arn" <;>
    cases h5 : d.HasChange "notification_metadata" <;>
    simp only [r6, r5, r4, r3, r2, r1, r0, h1, h2, h3, h4, h5] <;>
    exact ⟨rfl, rfl, rfl, rfl, rfl, rfl, rfl, rfl⟩

/-- The request of `buildAlicloudEssLifeCycleHookArgs`, field by field. -/
theorem build_cases (d : ResourceData) :
    (buildAlicloudEssLifeCycleHookArgs d).ScalingGroupId = Get d.scaling_group_id ∧
    (buildAlicloudEssLifeCycleHookArgs d).LifecycleHookName =
      (if d.name.isSome ∧ Get d.name ≠ "" then Get d.name else "") ∧
    (buildAlicloudEssLifeCycleHookArgs d).LifecycleTransition = Get d.lifecycle_transition ∧
    (buildAlicloudEssLifeCycleHookArgs d).HeartbeatTimeout =
      (if d.heartbeat_timeout.isSome ∧ 0 < Get d.heartbeat_timeout
        then NewInteger (Get d.heartbeat_timeout) else "") ∧
    (buildAlicloudEssLifeCycleHookArgs d).DefaultResult =
      (if d.default_result.isSome ∧ Get d.default_result ≠ "" then Get d.default_result
        else "") ∧
    (buildAlicloudEssLifeCycleHookArgs d).NotificationArn =
      (if d.notification_arn.isSome ∧ Get d.notification_arn ≠ "" then Get d.notification_arn
        else "") ∧
    (buildAlicloudEssLifeCycleHookArgs d).NotificationMetadata =
      (if d.notification_metadata.isSome ∧ Get d.notification_metadata ≠ ""
        then Get d.notification_metadata else "") := by
  unfold buildAlicloudEssLifeCycleHookArgs
  lift_lets
  intro r0 r1 r2 tr r3 r4 r5 r6 r7
  refine ⟨?_, ?_, ?_, ?_, ?_, ?_, ?_⟩
  · simp only [r7, r6, r5, r4, r3, r2, r1, r0, tr,
      apply_ite CreateLifecycleHookRequest.ScalingGroupId, ite_self]
  · simp only [r7, r6, r5, r4, r3, r2, r1, r0, tr,
      apply_ite CreateLifecycleHookRequest.LifecycleHookName, ite_self]
    cases d.name <;> simp [GetOk, Get, CreateCreateLifecycleHookRequest]
  · simp only [r7, r6, r5, r4, r3, r2, r1, r0, tr,
      apply_ite CreateLifecycleHookRequest.LifecycleTransition, ite_self]
    cases d.lifecycle_transition with
    | none => simp [Get, CreateCreateLifecycleHookRequest]
    | some v =>
      simp only [Get, Option.getD_some, CreateCreateLifecycleHookRequest]
      split
      · rfl
      · rename_i h
        exact (not_not.mp h).symm
  · simp only [r7, r6, r5, r4, r3, r2, r1, r0, tr,
      apply_ite CreateLifecycleHookRequest.HeartbeatTimeout, ite_self]
    cases d.heartbeat_timeout with
    | none => simp [GetOk, Get, CreateCreateLifecycleHookRequest]
    | some n =>
      simp only [GetOk, Get, Option.getD_some, CreateCreateLifecycleHookRequest]
      by_cases h : 0 < n
      · have h0 : n ≠ 0 := by omega
        simp [h, h0]
      · simp [h]
  · simp only [r7, r6, r5, r4, r3, r2, r1, r0, tr,
      apply_ite CreateLifecycleHookRequest.DefaultResult, ite_self]
    cases d.default_result <;> simp [GetOk, Get, CreateCreateLifecycleHookRequest]
  · simp only [r7, r6, r5, r4, r3, r2, r1, r0, tr,
      apply_ite CreateLifecycleHookRequest.NotificationArn, ite_self]
    cases d.notification_arn <;> simp [GetOk, Get, CreateCreateLifecycleHookRequest]
  · simp only [r7, r6, r5, r4, r3, r2, r1, r0, tr,
      apply_ite CreateLifecycleHookRequest.NotificationMetadata, ite_self]
    cases d.notification_metadata <;> simp [GetOk, Get, CreateCreateLifecycleHookRequest]

/-- A throttled create attempt is retryable, records its call and leaves the record. -/
theorem createAttempt_throttled (meta : AliyunClient) (request : CreateLifecycleHookRequest)
    (i : Nat) (s : Session) (e : Error)
    (hcall : meta.CreateLifecycleHook i request = .error e)
    (hthr : IsExceptedError e EssThrottling = true) :
    createAttempt meta request i s
      = (some (RetryableError e), ⟨s.d, s.calls ++ [Call.create request]⟩) := by
  simp [createAttempt, hcall, hthr]

/-- A create attempt that fails otherwise is not retryable. -/
theorem createAttempt_fatal (meta : AliyunClient) (request : CreateLifecycleHookRequest)
    (i : Nat) (s : Session) (e : Error)
    (hcall : meta.CreateLifecycleHook i request = .error e)
    (hthr : IsExceptedError e EssThrottling = false) :
    createAttempt meta request i s
      = (some (NonRetryableError e), ⟨s.d, s.calls ++ [Call.create request]⟩) := by
  simp [createAttempt, hcall, hthr]

/-- A successful create attempt stores the new identity. -/
theorem createAttempt_ok (meta : AliyunClient) (request : CreateLifecycleHookRequest)
    (i : Nat) (s : Session) (h : String)
    (hcall : meta.CreateLifecycleHook i request = .ok ⟨h⟩) :
    createAttempt meta request i s
      = (none, ⟨s.d.SetId h, s.calls ++ [Call.create request]⟩) := by
  simp [createAttempt, hcall]

/-- Attempt starts do not decrease. -/
theorem attemptStart_mono (cost backoff : Nat → Nat) (j k : Nat) (hjk : j ≤ k) :
    attemptStart cost backoff j ≤ attemptStart cost backoff k := by
  induction k with
  | zero =>
    have : j = 0 := by omega
    subst this
    exact Nat.le_refl _
  | succ k ih =>
    rcases Nat.lt_or_ge j (k + 1) with h | h
    · have := ih (by omega)
      simp only [attemptStart]
      omega
    · have : j = k + 1 := by omega
      subst this
      exact Nat.le_refl _

/-- When every retried attempt advances the clock, attempt `k` starts no earlier than
time `k`. -/
theorem attemptStart_ge (cost backoff : Nat → Nat) (k : Nat)
    (hpos : ∀ j, j < k → 0 < cost j + backoff j) : k ≤ attemptStart cost backoff k := by
  induction k with
  | zero => exact Nat.le_refl _
  | succ k ih =>
    have h1 := ih (fun j hj => hpos j (by omega))
    have h2 := hpos k (by omega)
    simp only [attemptStart]
    omega

/-- The loop passes over `k` throttled attempts that start within the budget. -/
theorem retryLoop_skips_throttled (meta : AliyunClient) (request : CreateLifecycleHookRequest)
    (timeout : Nat) (k : Nat) : ∀ (fuel i : Nat) (s : Session),
    (∀ j, i ≤ j → j < i + k → ∃ e, meta.CreateLifecycleHook j request = .error e ∧
      IsExceptedError e EssThrottling = true) →
    (∀ j, i < j → j ≤ i + k → attemptStart meta.attemptCost meta.backoff j < timeout) →
    retryLoop timeout meta.attemptCost meta.backoff (createAttempt meta request) (fuel + k) i
        (attemptStart meta.attemptCost meta.backoff i) s
      = retryLoop timeout meta.attemptCost meta.backoff (createAttempt meta request) fuel
        (i + k) (attemptStart meta.attemptCost meta.backoff (i + k))
        ⟨s.d, s.calls ++ List.replicate k (Call.create request)⟩ := by
  induction k with
  | zero => intro fuel i s _ _; simp
  | succ k ih =>
    intro fuel i s hthr htime
    obtain ⟨e, hcall, he⟩ := hthr i (Nat.le_refl _) (by omega)
    have hnext : attemptStart meta.attemptCost meta.backoff i + meta.attemptCost i
        + meta.backoff i < timeout := htime (i + 1) (by omega) (by omega)
    have hstep : retryLoop timeout meta.attemptCost meta.backoff (createAttempt meta request)
        (fuel + k + 1) i (attemptStart meta.attemptCost meta.backoff i) s
        = retryLoop timeout meta.attemptCost meta.backoff (createAttempt meta request)
          (fuel + k) (i + 1) (attemptStart meta.attemptCost meta.backoff (i + 1))
          ⟨s.d, s.calls ++ [Call.create request]⟩ := by
      simp [retryLoop, createAttempt_throttled meta request i s e hcall he, RetryableError,
        hnext, attemptStart]
    have hih := ih fuel (i + 1) ⟨s.d, s.calls ++ [Call.create request]⟩
      (fun j h1 h2 => hthr j (by omega) (by omega))
      (fun j h1 h2 => htime j (by omega) (by omega))
    rw [show fuel + (k + 1) = fuel + k + 1 by omega, hstep, hih]
    have harith : i + 1 + k = i + (k + 1) := by omega
    rw [harith]
    simp [List.replicate_succ]

/-- The retry loop of Create when the create call is throttled on the attempts before
attempt `k`, which starts within the budget and succeeds with identity `h`. -/
theorem retry_create_success (d : ResourceData) (meta : AliyunClient) (k : Nat) (h : String)
    (hthr : ∀ j, j < k → ∃ e,
      meta.CreateLifecycleHook j (buildAlicloudEssLifeCycleHookArgs d) = .error e ∧
      IsExceptedError e EssThrottling = true)
    (hpos : ∀ j, j < k → 0 < meta.attemptCost j + meta.backoff j)
    (htime : k = 0 ∨ attemptStart meta.attemptCost meta.backoff k < 5 * time.Minute)
    (hok : meta.CreateLifecycleHook k (buildAlicloudEssLifeCycleHookArgs d) = .ok ⟨h⟩) :
    Retry (5 * time.Minute) meta.attemptCost meta.backoff
        (createAttempt meta (buildAlicloudEssLifeCycleHookArgs d)) ⟨d, []⟩
      = some ⟨none,
          ⟨d.SetId h, List.replicate (k + 1) (Call.create (buildAlicloudEssLifeCycleHookArgs d))⟩,
          k + 1, attemptStart meta.attemptCost meta.backoff k,
          attemptStart meta.attemptCost meta.backoff k + meta.attemptCost k⟩ := by
  have hk : k ≤ 5 * time.Minute := by
    rcases htime with h0 | hlt
    · omega
    · have := attemptStart_ge meta.attemptCost meta.backoff k hpos
      omega
  have hpre := retryLoop_skips_throttled meta (buildAlicloudEssLifeCycleHookArgs d)
    (5 * time.Minute) k (5 * time.Minute - k + 1) 0 ⟨d, []⟩
    (fun j _ h2 => hthr j (by omega))
    (fun j h1 h2 => by
      rcases htime with h0 | hlt
      · omega
      · exact Nat.lt_of_le_of_lt
          (attemptStart_mono meta.attemptCost meta.backoff j k (by omega)) hlt)
  have hfuel : 5 * time.Minute + 1 = 5 * time.Minute - k + 1 + k := by omega
  unfold Retry
  rw [hfuel]
  have h0 : attemptStart meta.attemptCost meta.backoff 0 = 0 := rfl
  rw [h0] at hpre
  rw [hpre]
  simp [retryLoop, createAttempt_ok meta _ _ _ h hok, List.replicate_succ']

/-- An error that matches an error code is not a time-out of the retry helper. -/
theorem isTimeout_of_excepted (code : String) : ∀ e : Error,
    IsExceptedError e code = true → e.isTimeout = false := by
  intro e
  induction e with
  | server c m => intro _; rfl
  | notFound m => intro _; rfl
  | timeout last _ => intro h; simp [IsExceptedError] at h
  | complex cause ctx ih =>
    intro h
    simp only [IsExceptedError] at h
    simpa [Error.isTimeout] using ih h

/-- The retry loop when every attempt is throttled and every retried attempt advances
the clock: it ends with the last throttling error, after an attempt that started
within the budget and whose pause would have passed it. -/
theorem retryLoop_always_throttled (meta : AliyunClient) (request : CreateLifecycleHookRequest)
    (timeout : Nat)
    (hthr : ∀ j, ∃ e, meta.CreateLifecycleHook j request = .error e ∧
      IsExceptedError e EssThrottling = true)
    (hpos : ∀ j, 0 < meta.attemptCost j + meta.backoff j) :
    ∀ (fuel i now : Nat) (s : Session), timeout - now < fuel → now < timeout →
    ∃ n start e, i < n ∧ now ≤ start ∧ start < timeout ∧
      timeout ≤ start + meta.attemptCost (n - 1) + meta.backoff (n - 1) ∧
      meta.CreateLifecycleHook (n - 1) request = .error e ∧
      retryLoop timeout meta.attemptCost meta.backoff (createAttempt meta request) fuel i now s
        = some ⟨some e,
            ⟨s.d, s.calls ++ List.replicate (n - i) (Call.create request)⟩,
            n, start, start + meta.attemptCost (n - 1)⟩ := by
  intro fuel
  induction fuel with
  | zero => intro i now s h _; omega
  | succ fuel ih =>
    intro i now s hfuel hnow
    obtain ⟨e, hcall, he⟩ := hthr i
    by_cases hnext : now + meta.attemptCost i + meta.backoff i < timeout
    · have hp := hpos i
      obtain ⟨n, start, e', hn, hstart, hlt, hstop, hcall', hrun⟩ :=
        ih (i + 1) (now + meta.attemptCost i + meta.backoff i)
          ⟨s.d, s.calls ++ [Call.create request]⟩ (by omega) hnext
      refine ⟨n, start, e', by omega, by omega, hlt, hstop, hcall', ?_⟩
      have hrep : n - i = (n - (i + 1)) + 1 := by omega
      simp only [retryLoop, createAttempt_throttled meta request i s e hcall he, RetryableError,
        hnext, if_true, hrun, hrep, List.replicate_succ]
      simp
    · refine ⟨i + 1, now, e, by omega, Nat.le_refl _, hnow, ?_, ?_, ?_⟩
      · simp only [Nat.add_sub_cancel]
        omega
      · simpa using hcall
      · simp [retryLoop, createAttempt_throttled meta request i s e hcall he, RetryableError,
          hnext]

/-- What Create does with the report of its retry loop. -/
theorem create_of_report (d : ResourceData) (meta : AliyunClient) (report : RetryReport Session)
    (hrun : Retry (5 * time.Minute) meta.attemptCost meta.backoff
      (createAttempt meta (buildAlicloudEssLifeCycleHookArgs d)) ⟨d, []⟩ = some report) :
    resourceAliyunEssLifeCycleHookCreate d meta =
      match report.err with
      | some err =>
        some ⟨some (WrapErrorf err DefaultErrorMsg
            ["alicloud_ess_lifecyclehook", "CreateLifecycleHook", AlibabaCloudSdkGoERROR]),
          report.state.d, report.state.calls⟩
      | none =>
        some ⟨(resourceAliyunEssLifeCycleHookRead report.state.d meta).err,
          (resourceAliyunEssLifeCycleHookRead report.state.d meta).d,
          report.state.calls ++ (resourceAliyunEssLifeCycleHookRead report.state.d meta).calls⟩ := by
  unfold resourceAliyunEssLifeCycleHookCreate
  simp only [hrun]

/-! ## Update -/

/-- C1. Minimal-diff update: whatever the record and whatever the change flags, the
first remote call of Update is a modify whose request has the record's identity as
`LifecycleHookId` and, for each of heartbeat_timeout, default_result,
notification_arn and notification_metadata, carries the record's current value when
the attribute is flagged as changed and is left empty when it is not; every later
call of the handler is the describe of the Read. -/
theorem update_request_minimal_diff (d : ResourceData) (meta : AliyunClient) :
    ∃ request rest,
      (resourceAliyunEssLifeCycleHookUpdate d meta).calls = Call.modify request :: rest ∧
      (∀ c ∈ rest, c = Call.describe d.Id) ∧
      request.LifecycleHookId = d.Id ∧
      request.HeartbeatTimeout =
        (if d.HasChange "heartbeat_timeout" then NewInteger (Get d.heartbeat_timeout) else "") ∧
      request.DefaultResult =
        (if d.HasChange "default_result" then Get d.default_result else "") ∧
      request.NotificationArn =
        (if d.HasChange "notification_arn" then Get d.notification_arn else "") ∧
      request.NotificationMetadata =
        (if d.HasChange "notification_metadata" then Get d.notification_metadata else "") := by
  obtain ⟨request, ⟨hid, -, -, -, hto, hres, harn, hmd⟩, hrun⟩ := update_cases d meta
  rw [hrun]
  cases meta.ModifyLifecycleHook request with
  | error err => exact ⟨request, [], rfl, by simp, hid, hto, hres, harn, hmd⟩
  | ok u =>
    refine ⟨request, _, rfl, ?_, hid, hto, hres, harn, hmd⟩
    intro c hc
    simpa [read_calls] using hc

/-- C2, as stated, fails: for a record whose lifecycle_transition is flagged as
changed, the modify request of Update carries the transition. -/
theorem update_sends_changed_transition :
    ¬ (∀ (d : ResourceData) (meta : AliyunClient) (request : ModifyLifecycleHookRequest),
        Call.modify request ∈ (resourceAliyunEssLifeCycleHookUpdate d meta).calls →
        request.ScalingGroupId = "" ∧ request.LifecycleHookName = "" ∧
          request.LifecycleTransition = "") := by
  intro h
  have h1 := h sampleChanged sampleClient
    ⟨"ash-1", "", "", "SCALE_IN", "400", "", "", ""⟩ (by decide)
  exact absurd h1.2.2 (by decide)

/-- C2, amended. For every record and every combination of change flags, a modify
request issued by Update leaves the parent group (scaling_group_id) and the hook name
(name) empty, and carries the transition point (lifecycle_transition) exactly when
that attribute is flagged as changed. -/
theorem update_never_sends_group_or_name (d : ResourceData) (meta : AliyunClient)
    (request : ModifyLifecycleHookRequest)
    (hsent : Call.modify request ∈ (resourceAliyunEssLifeCycleHookUpdate d meta).calls) :
    request.ScalingGroupId = "" ∧ request.LifecycleHookName = "" ∧
      request.LifecycleTransition =
        (if d.HasChange "lifecycle_transition" then Get d.lifecycle_transition else "") := by
  obtain ⟨r, ⟨-, hg, hn, ht, -⟩, hrun⟩ := update_cases d meta
  rw [hrun] at hsent
  have hr : request = r := by
    cases hm : meta.ModifyLifecycleHook r with
    | error err => simpa [hm] using hsent
    | ok u => simpa [hm, read_calls] using hsent
  subst hr
  exact ⟨hg, hn, ht⟩

/-- The amended C2 at a record whose transition and time-out are flagged as changed. -/
theorem update_never_sends_group_or_name_witness :
    Call.modify ⟨"ash-1", "", "", "SCALE_IN", "400", "", "", ""⟩ ∈
        (resourceAliyunEssLifeCycleHookUpdate sampleChanged sampleClient).calls ∧
      (("" : String) = "" ∧ ("" : String) = "" ∧
        "SCALE_IN" = (if sampleChanged.HasChange "lifecycle_transition"
          then Get sampleChanged.lifecycle_transition else "")) :=
  ⟨by decide, update_never_sends_group_or_name sampleChanged sampleClient
    ⟨"ash-1", "", "", "SCALE_IN", "400", "", "", ""⟩ (by decide)⟩

/-! ## Delete -/

/-- C3. Idempotent delete: when the remote delete call answers with the error code
InvalidLifecycleHookIdNotFound, Delete returns no error, issues nothing but that one
delete call and leaves the record as it was. Delete never changes the record, so the
same holds for a second Delete that follows any first one on the same record. -/
theorem delete_already_absent_succeeds (d : ResourceData) (meta first : AliyunClient)
    (err : Error)
    (hcall : meta.DeleteLifecycleHook ⟨d.Id⟩ = .error err)
    (hcode : IsExceptedError err InvalidLifecycleHookIdNotFound = true) :
    (resourceAliyunEssLifeCycleHookDelete d meta).err = none ∧
      (resourceAliyunEssLifeCycleHookDelete d meta).calls = [Call.delete ⟨d.Id⟩] ∧
      (resourceAliyunEssLifeCycleHookDelete d meta).d = d ∧
      (resourceAliyunEssLifeCycleHookDelete
        (resourceAliyunEssLifeCycleHookDelete d first).d meta).err = none := by
  have hd : ∀ c : AliyunClient, (resourceAliyunEssLifeCycleHookDelete d c).d = d := by
    intro c
    unfold resourceAliyunEssLifeCycleHookDelete
    simp only []
    split
    · split <;> rfl
    · rfl
  have hnone : (resourceAliyunEssLifeCycleHookDelete d meta).err = none ∧
      (resourceAliyunEssLifeCycleHookDelete d meta).calls = [Call.delete ⟨d.Id⟩] := by
    unfold resourceAliyunEssLifeCycleHookDelete
    simp [CreateDeleteLifecycleHookRequest, hcall, IsExceptedErrors, hcode]
  refine ⟨hnone.1, hnone.2, hd meta, ?_⟩
  rw [hd first]
  exact hnone.1

/-- C3 on a service whose delete call reports the hook as already absent, after a
first Delete on a service where everything succeeds. -/
theorem delete_already_absent_succeeds_witness :
    (resourceAliyunEssLifeCycleHookDelete sampleChanged goneClient).err = none ∧
      (resourceAliyunEssLifeCycleHookDelete sampleChanged goneClient).calls
        = [Call.delete ⟨"ash-1"⟩] ∧
      (resourceAliyunEssLifeCycleHookDelete
        (resourceAliyunEssLifeCycleHookDelete sampleChanged sampleClient).d goneClient).err
        = none :=
  have h := delete_already_absent_succeeds sampleChanged goneClient sampleClient goneError
    rfl (by decide)
  ⟨h.1, h.2.1, h.2.2.2⟩

/-! ## Read -/

/-- C4. Read reconciliation on drift: when the describe of the record's identity fails,
Read returns no error and leaves the identity empty if the failure is not-found, and
returns an error wrapping the failure and leaves the identity as it was otherwise. In
both cases the seven attributes are untouched and the describe is the only call. -/
theorem read_describe_failure (d : ResourceData) (meta : AliyunClient) (err : Error)
    (hdesc : meta.DescribeEssLifecycleHook d.Id = .error err) :
    (resourceAliyunEssLifeCycleHookRead d meta).err
        = (if NotFoundError err then none else some (.complex err [])) ∧
      (resourceAliyunEssLifeCycleHookRead d meta).d
        = { d with id := if NotFoundError err then "" else d.id } ∧
      (resourceAliyunEssLifeCycleHookRead d meta).calls = [Call.describe d.Id] := by
  rw [read_cases, hdesc]
  cases h : NotFoundError err <;> simp [h]

/-- C4 at a record with identity "ash-1": once with a not-found describe, once with
a describe that fails for another reason. -/
theorem read_describe_failure_witness :
    ((resourceAliyunEssLifeCycleHookRead sampleChanged goneClient).err = none ∧
      (resourceAliyunEssLifeCycleHookRead sampleChanged goneClient).d.id = "") ∧
    ((resourceAliyunEssLifeCycleHookRead sampleChanged refusedClient).err
        = some (.complex (.server "Forbidden" "no") []) ∧
      (resourceAliyunEssLifeCycleHookRead sampleChanged refusedClient).d.id = "ash-1") := by
  have h1 := read_describe_failure sampleChanged goneClient
    (.complex (.notFound "hook") []) rfl
  have h2 := read_describe_failure sampleChanged refusedClient (.server "Forbidden" "no") rfl
  refine ⟨⟨h1.1, ?_⟩, ⟨h2.1, ?_⟩⟩
  · rw [h1.2.1]; rfl
  · rw [h2.2.1]; rfl

/-! ## Update against Delete on a vanished resource -/

/-- C8. Update and Delete differ on a vanished resource: when the remote modify call
and the remote delete call for the record's identity both fail with the same error,
and that error has the code InvalidLifecycleHookIdNotFound, Update returns an error wrapping it, issues no
describe and leaves the record as it was, whereas Delete returns no error. -/
theorem update_fatal_delete_silent_on_not_found (d : ResourceData) (meta : AliyunClient)
    (err : Error)
    (hmodify : ∀ request : ModifyLifecycleHookRequest, request.LifecycleHookId = d.Id →
      meta.ModifyLifecycleHook request = .error err)
    (hdelete : meta.DeleteLifecycleHook ⟨d.Id⟩ = .error err)
    (hcode : IsExceptedError err InvalidLifecycleHookIdNotFound = true) :
    (resourceAliyunEssLifeCycleHookUpdate d meta).err
        = some (WrapErrorf err DefaultErrorMsg
            [d.Id, "ModifyLifecycleHook", AlibabaCloudSdkGoERROR]) ∧
      (∀ c ∈ (resourceAliyunEssLifeCycleHookUpdate d meta).calls, c.isDescribe = false) ∧
      (resourceAliyunEssLifeCycleHookUpdate d meta).d = d ∧
      (resourceAliyunEssLifeCycleHookDelete d meta).err = none := by
  obtain ⟨r, ⟨hid, -⟩, hrun⟩ := update_cases d meta
  rw [hrun, hmodify r hid]
  refine ⟨rfl, by simp [Call.isDescribe], rfl, ?_⟩
  unfold resourceAliyunEssLifeCycleHookDelete
  simp [CreateDeleteLifecycleHookRequest, hdelete, IsExceptedErrors, hcode]

/-- C8 on a service whose modify and delete calls both report the hook as absent. -/
theorem update_fatal_delete_silent_on_not_found_witness :
    (resourceAliyunEssLifeCycleHookUpdate sampleChanged goneClient).err
      = some (.complex goneError
          [DefaultErrorMsg, "ash-1", "ModifyLifecycleHook", AlibabaCloudSdkGoERROR]) ∧
    (resourceAliyunEssLifeCycleHookDelete sampleChanged goneClient).err = none :=
  have h := update_fatal_delete_silent_on_not_found sampleChanged goneClient goneError
    (fun _ _ => rfl) rfl (by decide)
  ⟨h.1, h.2.2.2⟩

/-! ## Create -/

/-- C7. Create request construction: for every record the request of
`buildAlicloudEssLifeCycleHookArgs` carries the parent group (scaling_group_id) and
the transition point (lifecycle_transition) of the record; each of the attributes
name, default_result, notification_arn and notification_metadata is present (non-empty)
exactly when the attribute is set and non-empty, and then equals it; the time-out is
present exactly when heartbeat_timeout is set and positive, and is then its decimal
text; an omitted field is the empty value. The function reads the record and
returns nothing but the request. -/
theorem build_request_fields (d : ResourceData) :
    (buildAlicloudEssLifeCycleHookArgs d).ScalingGroupId = Get d.scaling_group_id ∧
    (buildAlicloudEssLifeCycleHookArgs d).LifecycleTransition = Get d.lifecycle_transition ∧
    ((buildAlicloudEssLifeCycleHookArgs d).LifecycleHookName =
        (if d.name.isSome ∧ Get d.name ≠ "" then Get d.name else "") ∧
      ((buildAlicloudEssLifeCycleHookArgs d).LifecycleHookName ≠ "" ↔
        d.name.isSome ∧ Get d.name ≠ "")) ∧
    ((buildAlicloudEssLifeCycleHookArgs d).HeartbeatTimeout =
        (if d.heartbeat_timeout.isSome ∧ 0 < Get d.heartbeat_timeout
          then NewInteger (Get d.heartbeat_timeout) else "") ∧
      ((buildAlicloudEssLifeCycleHookArgs d).HeartbeatTimeout ≠ "" ↔
        d.heartbeat_timeout.isSome ∧ 0 < Get d.heartbeat_timeout)) ∧
    ((buildAlicloudEssLifeCycleHookArgs d).DefaultResult =
        (if d.default_result.isSome ∧ Get d.default_result ≠ "" then Get d.default_result
          else "") ∧
      ((buildAlicloudEssLifeCycleHookArgs d).DefaultResult ≠ "" ↔
        d.default_result.isSome ∧ Get d.default_result ≠ "")) ∧
    ((buildAlicloudEssLifeCycleHookArgs d).NotificationArn =
        (if d.notification_arn.isSome ∧ Get d.notification_arn ≠ ""
          then Get d.notification_arn else "") ∧
      ((buildAlicloudEssLifeCycleHookArgs d).NotificationArn ≠ "" ↔
        d.notification_arn.isSome ∧ Get d.notification_arn ≠ "")) ∧
    ((buildAlicloudEssLifeCycleHookArgs d).NotificationMetadata =
        (if d.notification_metadata.isSome ∧ Get d.notification_metadata ≠ ""
          then Get d.notification_metadata else "") ∧
      ((buildAlicloudEssLifeCycleHookArgs d).NotificationMetadata ≠ "" ↔
        d.notification_metadata.isSome ∧ Get d.notification_metadata ≠ "")) := by
  obtain ⟨hg, hn, ht, hto, hr, ha, hm⟩ := build_cases d
  have hstr : ∀ (c : Prop) [Decidable c] (v : String), (c → v ≠ "") →
      ((if c then v else "") ≠ "" ↔ c) := by
    intro c _ v hv
    by_cases hc : c
    · simp [hc, hv hc]
    · simp [hc]
  refine ⟨hg, ht, ⟨hn, ?_⟩, ⟨hto, ?_⟩, ⟨hr, ?_⟩, ⟨ha, ?_⟩, ⟨hm, ?_⟩⟩
  · rw [hn]; exact hstr _ _ (fun h => h.2)
  · rw [hto]; exact hstr _ _ (fun _ => NewInteger_ne_empty _)
  · rw [hr]; exact hstr _ _ (fun h => h.2)
  · rw [ha]; exact hstr _ _ (fun h => h.2)
  · rw [hm]; exact hstr _ _ (fun h => h.2)

/-- C5. Create then Read consistency: when the create call is throttled on the attempts
before attempt `k`, attempt `k` starts within the five-minute budget and succeeds with
hook id `h`, and the describe of `h` succeeds with observed state `o`, Create returns
no error, the record's identity is `h`, each of the seven attributes equals the
corresponding field of `o` whatever the record held before, and the calls were the
`k + 1` create attempts followed by one describe of `h`. -/
theorem create_then_read_consistent (d : ResourceData) (meta : AliyunClient) (k : Nat)
    (h : String) (o : LifecycleHook)
    (hthr : ∀ j, j < k → ∃ e,
      meta.CreateLifecycleHook j (buildAlicloudEssLifeCycleHookArgs d) = .error e ∧
      IsExceptedError e EssThrottling = true)
    (hpos : ∀ j, j < k → 0 < meta.attemptCost j + meta.backoff j)
    (htime : k = 0 ∨ attemptStart meta.attemptCost meta.backoff k < 5 * time.Minute)
    (hok : meta.CreateLifecycleHook k (buildAlicloudEssLifeCycleHookArgs d) = .ok ⟨h⟩)
    (hdesc : meta.DescribeEssLifecycleHook h = .ok o) :
    ∃ out, resourceAliyunEssLifeCycleHookCreate d meta = some out ∧
      out.err = none ∧ out.d.id = h ∧
      out.d.scaling_group_id = some o.ScalingGroupId ∧
      out.d.name = some o.LifecycleHookName ∧
      out.d.lifecycle_transition = some o.LifecycleTransition ∧
      out.d.heartbeat_timeout = some o.HeartbeatTimeout ∧
      out.d.default_result = some o.DefaultResult ∧
      out.d.notification_arn = some o.NotificationArn ∧
      out.d.notification_metadata = some o.NotificationMetadata ∧
      out.calls = List.replicate (k + 1) (Call.create (buildAlicloudEssLifeCycleHookArgs d))
        ++ [Call.describe h] := by
  have hrun := retry_create_success d meta k h hthr hpos htime hok
  have hcreate := create_of_report d meta _ hrun
  have hid : (d.SetId h).Id = h := rfl
  simp only [read_cases, hid, hdesc] at hcreate
  exact ⟨_, hcreate, rfl, rfl, rfl, rfl, rfl, rfl, rfl, rfl, rfl, rfl⟩

/-- C5 on a service that throttles two attempts and accepts the third: the time-out
the record gets is the observed one, and the name, never set, is the assigned one. -/
theorem create_then_read_consistent_witness :
    ∃ out, resourceAliyunEssLifeCycleHookCreate sampleNew busyClient = some out ∧
      out.err = none ∧ out.d.id = "ash-1" ∧
      out.d.scaling_group_id = some "asg-1" ∧
      out.d.name = some "hook-auto" ∧
      out.d.lifecycle_transition = some "SCALE_OUT" ∧
      out.d.heartbeat_timeout = some 600 ∧
      out.d.default_result = some "CONTINUE" ∧
      out.d.notification_arn = some "arn-auto" ∧
      out.d.notification_metadata = some "meta-auto" ∧
      out.calls = List.replicate (2 + 1) (Call.create (buildAlicloudEssLifeCycleHookArgs sampleNew))
        ++ [Call.describe "ash-1"] :=
  create_then_read_consistent sampleNew busyClient 2 "ash-1" sampleHook
    (fun _ hj => ⟨throttlingError, if_pos hj, by decide⟩)
    (fun _ _ => (by decide : (0 : Nat) < 1000000000 + 1000000000)) (Or.inr (by decide)) rfl rfl

/-- C6. Fatal short-circuit on create: when the first attempt of the create call fails
with an error that is not the throttling error, the retry loop makes exactly one
attempt, and Create returns an error wrapping that cause, leaves the record (its
identity included) as it was and issues no call besides that one create attempt, so
no Read takes place. -/
theorem create_fatal_short_circuit (d : ResourceData) (meta : AliyunClient) (e : Error)
    (hcall : meta.CreateLifecycleHook 0 (buildAlicloudEssLifeCycleHookArgs d) = .error e)
    (hfatal : IsExceptedError e EssThrottling = false) :
    (∃ report, Retry (5 * time.Minute) meta.attemptCost meta.backoff
        (createAttempt meta (buildAlicloudEssLifeCycleHookArgs d)) ⟨d, []⟩ = some report ∧
      report.attempts = 1 ∧ report.err = some e) ∧
    resourceAliyunEssLifeCycleHookCreate d meta
      = some ⟨some (WrapErrorf e DefaultErrorMsg
          ["alicloud_ess_lifecyclehook", "CreateLifecycleHook", AlibabaCloudSdkGoERROR]),
        d, [Call.create (buildAlicloudEssLifeCycleHookArgs d)]⟩ := by
  have hrun : Retry (5 * time.Minute) meta.attemptCost meta.backoff
      (createAttempt meta (buildAlicloudEssLifeCycleHookArgs d)) ⟨d, []⟩
      = some ⟨some e, ⟨d, [Call.create (buildAlicloudEssLifeCycleHookArgs d)]⟩, 1, 0,
          meta.attemptCost 0⟩ := by
    simp [Retry, retryLoop, createAttempt_fatal meta _ 0 ⟨d, []⟩ e hcall hfatal,
      NonRetryableError]
  refine ⟨⟨_, hrun, rfl, rfl⟩, ?_⟩
  rw [create_of_report d meta _ hrun]

/-- C6 on a service that rejects the create call. -/
theorem create_fatal_short_circuit_witness :
    (resourceAliyunEssLifeCycleHookCreate sampleNew rejectingClient).map
        (fun out => (out.err, out.d.id, out.calls))
      = some (some (.complex (.server "Forbidden" "no")
            [DefaultErrorMsg, "alicloud_ess_lifecyclehook", "CreateLifecycleHook",
              AlibabaCloudSdkGoERROR]),
          "", [Call.create (buildAlicloudEssLifeCycleHookArgs sampleNew)]) := by
  rw [(create_fatal_short_circuit sampleNew rejectingClient (.server "Forbidden" "no")
    rfl (by decide)).2]
  rfl

/-- C9, as stated, fails: on a service that throttles every create attempt, Create
returns the throttling error of the last attempt in the provider's wrapper, and no
time-out error is found in it. -/
theorem create_throttled_is_not_timeout :
    (∀ j, ∃ e,
      throttledClient.CreateLifecycleHook j (buildAlicloudEssLifeCycleHookArgs sampleNew)
        = .error e ∧ IsExceptedError e EssThrottling = true) ∧
    (resourceAliyunEssLifeCycleHookCreate sampleNew throttledClient).map (fun out => out.err)
      = some (some (WrapErrorf throttlingError DefaultErrorMsg
          ["alicloud_ess_lifecyclehook", "CreateLifecycleHook", AlibabaCloudSdkGoERROR])) ∧
    ¬ ∃ out e, resourceAliyunEssLifeCycleHookCreate sampleNew throttledClient = some out ∧
      out.err = some e ∧ e.isTimeout = true := by
  have hrun : resourceAliyunEssLifeCycleHookCreate sampleNew throttledClient
      = some ⟨some (WrapErrorf throttlingError DefaultErrorMsg
          ["alicloud_ess_lifecyclehook", "CreateLifecycleHook", AlibabaCloudSdkGoERROR]),
        sampleNew,
        List.replicate 5 (Call.create (buildAlicloudEssLifeCycleHookArgs sampleNew))⟩ := by
    rfl
  refine ⟨fun _ => ⟨throttlingError, rfl, by decide⟩, by rw [hrun]; rfl, ?_⟩
  rintro ⟨out, e, hout, herr, htime⟩
  rw [hrun] at hout
  cases hout
  cases herr
  revert htime
  decide

/-- C9, amended. When every attempt of the create call is throttled and every retried
attempt advances the clock, the retry loop of Create ends; it has made at least one
attempt; its last attempt started before the five-minute budget had elapsed, so it
ended before the budget plus that attempt's duration; the loop stopped because the
pause after that attempt would have reached the budget; its error is the throttling
error of the last attempt, which is not a time-out error; and Create returns that
error wrapped, with the record (its identity included) as it was and nothing but
create attempts among its calls. -/
theorem create_throttled_returns_last_error (d : ResourceData) (meta : AliyunClient)
    (hthr : ∀ j, ∃ e,
      meta.CreateLifecycleHook j (buildAlicloudEssLifeCycleHookArgs d) = .error e ∧
      IsExceptedError e EssThrottling = true)
    (hpos : ∀ j, 0 < meta.attemptCost j + meta.backoff j) :
    ∃ report e,
      Retry (5 * time.Minute) meta.attemptCost meta.backoff
        (createAttempt meta (buildAlicloudEssLifeCycleHookArgs d)) ⟨d, []⟩ = some report ∧
      1 ≤ report.attempts ∧
      report.lastStart < 5 * time.Minute ∧
      report.finished = report.lastStart + meta.attemptCost (report.attempts - 1) ∧
      report.finished < 5 * time.Minute + meta.attemptCost (report.attempts - 1) ∧
      5 * time.Minute ≤ report.finished + meta.backoff (report.attempts - 1) ∧
      meta.CreateLifecycleHook (report.attempts - 1) (buildAlicloudEssLifeCycleHookArgs d)
        = .error e ∧
      IsExceptedError e EssThrottling = true ∧
      e.isTimeout = false ∧
      report.err = some e ∧
      resourceAliyunEssLifeCycleHookCreate d meta
        = some ⟨some (WrapErrorf e DefaultErrorMsg
            ["alicloud_ess_lifecyclehook", "CreateLifecycleHook", AlibabaCloudSdkGoERROR]),
          d, List.replicate report.attempts
            (Call.create (buildAlicloudEssLifeCycleHookArgs d))⟩ := by
  have hbudget : 0 < 5 * time.Minute := by decide
  obtain ⟨n, start, e, hn, -, hlt, hstop, hcall, hrun⟩ :=
    retryLoop_always_throttled meta (buildAlicloudEssLifeCycleHookArgs d) (5 * time.Minute)
      hthr hpos (5 * time.Minute + 1) 0 0 ⟨d, []⟩ (by omega) hbudget
  have hrun' : Retry (5 * time.Minute) meta.attemptCost meta.backoff
      (createAttempt meta (buildAlicloudEssLifeCycleHookArgs d)) ⟨d, []⟩ = _ := hrun
  have hcode : IsExceptedError e EssThrottling = true := by
    obtain ⟨e', hcall', he'⟩ := hthr (n - 1)
    rw [hcall] at hcall'
    cases hcall'
    exact he'
  refine ⟨_, e, hrun', ?_, hlt, rfl, ?_, hstop, hcall, hcode,
    isTimeout_of_excepted EssThrottling e hcode, rfl, ?_⟩
  · exact hn
  · show start + meta.attemptCost (n - 1) < 5 * time.Minute + meta.attemptCost (n - 1)
    omega
  · rw [create_of_report d meta _ hrun']
    simp

/-- The amended C9 on a service that throttles every create attempt. -/
theorem create_throttled_returns_last_error_witness :
    ∃ report e,
      Retry (5 * time.Minute) throttledClient.attemptCost throttledClient.backoff
        (createAttempt throttledClient (buildAlicloudEssLifeCycleHookArgs sampleNew))
        ⟨sampleNew, []⟩ = some report ∧
      1 ≤ report.attempts ∧
      report.lastStart < 5 * time.Minute ∧
      report.finished = report.lastStart + throttledClient.attemptCost (report.attempts - 1) ∧
      report.finished < 5 * time.Minute + throttledClient.attemptCost (report.attempts - 1) ∧
      5 * time.Minute ≤ report.finished + throttledClient.backoff (report.attempts - 1) ∧
      throttledClient.CreateLifecycleHook (report.attempts - 1)
        (buildAlicloudEssLifeCycleHookArgs sampleNew) = .error e ∧
      IsExceptedError e EssThrottling = true ∧
      e.isTimeout = false ∧
      report.err = some e ∧
      resourceAliyunEssLifeCycleHookCreate sampleNew throttledClient
        = some ⟨some (WrapErrorf e DefaultErrorMsg
            ["alicloud_ess_lifecyclehook", "CreateLifecycleHook", AlibabaCloudSdkGoERROR]),
          sampleNew, List.replicate report.attempts
            (Call.create (buildAlicloudEssLifeCycleHookArgs sampleNew))⟩ :=
  create_throttled_returns_last_error sampleNew throttledClient
    (fun _ => ⟨throttlingError, rfl, by decide⟩)
    (fun _ => (by decide : (0 : Nat) < 1000000000 + 60000000000))

/-- C10. A mutation followed by a not-found describe is reported as success. Create:
when the create call is throttled on the attempts before attempt `k`, which starts
within the budget and succeeds with hook id `h`, and the describe of `h` answers
not-found, Create returns no error and leaves the record with an empty identity and
its seven attributes as they were. Update: when the modify call for the record's
identity succeeds and the describe of that identity answers not-found, Update returns
no error and leaves the record with an empty identity and its seven attributes as
they were. -/
theorem mutation_then_not_found_is_success
    (d : ResourceData) (meta : AliyunClient) (k : Nat) (h : String) (e : Error)
    (d' : ResourceData) (meta' : AliyunClient) (e' : Error)
    (hthr : ∀ j, j < k → ∃ e,
      meta.CreateLifecycleHook j (buildAlicloudEssLifeCycleHookArgs d) = .error e ∧
      IsExceptedError e EssThrottling = true)
    (hpos : ∀ j, j < k → 0 < meta.attemptCost j + meta.backoff j)
    (htime : k = 0 ∨ attemptStart meta.attemptCost meta.backoff k < 5 * time.Minute)
    (hok : meta.CreateLifecycleHook k (buildAlicloudEssLifeCycleHookArgs d) = .ok ⟨h⟩)
    (hdesc : meta.DescribeEssLifecycleHook h = .error e)
    (hgone : NotFoundError e = true)
    (hmodify : ∀ request : ModifyLifecycleHookRequest, request.LifecycleHookId = d'.Id →
      meta'.ModifyLifecycleHook request = .ok ())
    (hdesc' : meta'.DescribeEssLifecycleHook d'.Id = .error e')
    (hgone' : NotFoundError e' = true) :
    resourceAliyunEssLifeCycleHookCreate d meta
        = some ⟨none, { d with id := "" },
            List.replicate (k + 1) (Call.create (buildAlicloudEssLifeCycleHookArgs d))
              ++ [Call.describe h]⟩ ∧
      (resourceAliyunEssLifeCycleHookUpdate d' meta').err = none ∧
      (resourceAliyunEssLifeCycleHookUpdate d' meta').d = { d' with id := "" } := by
  constructor
  · have hrun := retry_create_success d meta k h hthr hpos htime hok
    have hcreate := create_of_report d meta _ hrun
    have hid : (d.SetId h).Id = h := rfl
    simp only [read_cases, hid, hdesc, hgone, if_true] at hcreate
    exact hcreate
  · obtain ⟨r, ⟨hid, -⟩, hrun⟩ := update_cases d' meta'
    rw [hrun, hmodify r hid]
    simp [read_cases, hdesc', hgone']

/-- C10 on a service that accepts the third create attempt and the modify call but on
which the describe finds nothing. -/
theorem mutation_then_not_found_is_success_witness :
    (resourceAliyunEssLifeCycleHookCreate sampleNew lostClient).map
        (fun out => (out.err, out.d.id, out.d.heartbeat_timeout, out.d.name))
      = some (none, "", some 600, none) ∧
    (resourceAliyunEssLifeCycleHookUpdate sampleChanged lostClient).err = none ∧
    (resourceAliyunEssLifeCycleHookUpdate sampleChanged lostClient).d.id = "" := by
  have hw := mutation_then_not_found_is_success sampleNew lostClient 2 "ash-1"
    (.complex (.notFound "hook") []) sampleChanged lostClient (.complex (.notFound "hook") [])
    (fun _ hj => ⟨throttlingError, if_pos hj, by decide⟩)
    (fun _ _ => (by decide : (0 : Nat) < 1000000000 + 1000000000)) (Or.inr (by decide)) rfl rfl rfl (fun _ _ => rfl) rfl rfl
  refine ⟨?_, hw.2.1, ?_⟩
  · rw [hw.1]; rfl
  · rw [hw.2.2]

end Alicloud
